import Mathlib

/-!
Formal model of the Veloce API client request core (`veloce/client.py`):
session lifecycle (`_ensure_session`, `close`), header construction
(`_get_headers`), the retry/backoff loop of `VeloceClient._request`, and
`VeloceClient.health_check`.

The network is modelled as a function from the attempt index to the event the
transport produces on that attempt: a decoded HTTP response (with `none`
standing for a body that failed to decode as JSON), a connectivity/timeout
fault (`aiohttp.ClientError` / `asyncio.TimeoutError`), or an unexpected
fault (any other exception raised while sending).
-/

namespace Veloce

/-- Decoded JSON values, the payload of `resp.json()`. -/
inductive JsonVal where
  | str : String → JsonVal
  | num : Int → JsonVal
  | bool : Bool → JsonVal
  | null : JsonVal
  | arr : List JsonVal → JsonVal
  | obj : List (String × JsonVal) → JsonVal

/-- Decoded top-level JSON object (`Dict[str, Any]`), as an association list. -/
abbrev Json := List (String × JsonVal)

/-- Lookup `d.get(key)` on a decoded JSON object: first binding of `key`. -/
def jsonGet : Json → String → Option JsonVal
  | [], _ => none
  | (k, v) :: rest, key => if k = key then some v else jsonGet rest key

/-- Modelled from the spec: the exception taxonomy of `veloce/exceptions.py`
(that module is not under `src/`; only its constructor calls appear in
`client.py`).  Spec section 7 lists the kinds and the data each carries, and
makes the generic API error the base kind, so catching it catches every other
kind (as `health_check` relies on).  Following spec section 9, the hierarchy
is one sum type with a case per kind. -/
inductive ApiError where
  | authError (msg : String) (status_code : Nat) (response : Json)
  | notFoundError (msg : String) (status_code : Nat) (response : Json)
  | conflictError (msg : String) (status_code : Nat) (response : Json)
  | validationError (detail : JsonVal) (status_code : Nat) (response : Json)
  | serverError (msg : String) (status_code : Nat) (response : Json)
  | apiError (msg : String)

/-- What the transport yields on one attempt of the retry loop. -/
inductive NetEvent where
  | response (status : Nat) (decoded : Option Json)
  | transportFault (msg : String)
  | unexpectedFault (msg : String)

/-- Record of one request put on the wire by `session.request`. -/
structure SentRequest where
  method : String
  url : String
  headers : List (String × String)

/-- Outcome of `_request`: the `(status, body)` pair, or a raised error. -/
inductive ReqResult where
  | ok (status : Nat) (body : Json)
  | err (e : ApiError)

/-- Observable trace of one `_request` call: its outcome, the number of loop
iterations executed, the backoff sleeps performed (in order), the requests
put on the wire (one per attempt), and whether control fell through to the
defensive fallback after the loop. -/
structure ReqTrace where
  result : ReqResult
  attempts : Nat
  sleeps : List Nat
  sent : List SentRequest
  fellThrough : Bool

/-- Client configuration, immutable after `__init__`. -/
structure ClientConfig where
  base_url : String
  api_key : String
  timeout : Nat
  max_retries : Nat

/-- Translation of `VeloceClient._get_headers`. -/
def get_headers (api_key : String) : List (String × String) :=
  [("X-API-Key", api_key), ("Content-Type", "application/json")]

/-- The backoff delay `min(2 ** attempt, 60)` slept before the next attempt. -/
def backoffDelay (attempt : Nat) : Nat :=
  min (2 ^ attempt) 60

/-- An `aiohttp.ClientSession`: whether it has been closed, and an identity. -/
structure Session where
  closed : Bool
  sid : Nat

/-- The session-related state of a `VeloceClient`. -/
structure ClientState where
  session : Option Session
  owns_session : Bool

/-- Translation of `VeloceClient._ensure_session`: reuse the stored session
when it exists and is not closed, otherwise store a fresh open session (with
identity `fresh`) and mark it owned.  Returns the new state and the session. -/
def ensure_session (cs : ClientState) (fresh : Nat) : ClientState × Session :=
  match cs.session with
  | none => (⟨some ⟨false, fresh⟩, true⟩, ⟨false, fresh⟩)
  | some s =>
    if s.closed then (⟨some ⟨false, fresh⟩, true⟩, ⟨false, fresh⟩)
    else (cs, s)

/-- Translation of `VeloceClient.close`: when a session is stored, not yet
closed, and owned, close it and drop the reference; otherwise do nothing. -/
def close (cs : ClientState) : ClientState :=
  match cs.session with
  | some s => if ¬s.closed ∧ cs.owns_session then ⟨none, cs.owns_session⟩ else cs
  | none => cs

/-- The trace of a loop iteration that returns or raises at attempt index
`attempt`: one request sent, no backoff sleep, no fallthrough. -/
def attemptTrace (method url : String) (headers : List (String × String))
    (attempt : Nat) (r : ReqResult) : ReqTrace :=
  ⟨r, attempt + 1, [], [⟨method, url, headers⟩], false⟩

/-- Translation of the `for attempt in range(retries)` loop of
`VeloceClient._request`, recursing on `remaining = retries - attempt` (so the
source guard `attempt < retries - 1` is `0 < remaining` after this iteration
consumed one).  `remaining = 0` is the defensive fallback after the loop.
Per attempt: decode failure degrades the body to the empty mapping; statuses
401/403/404/409/400/422 raise their typed error at once; a status of at least
500 sleeps `min(2 ** attempt, 60)` and continues when attempts remain, else
raises the server error; any other status returns `(status, body)`; a
transport fault likewise sleeps and continues or raises the generic API
error; an unexpected fault raises the generic API error at once. -/
def requestLoop (method url : String) (headers : List (String × String))
    (events : Nat → NetEvent) (retries : Nat) :
    Nat → Option String → Nat → ReqTrace
  | attempt, lastExc, 0 =>
    match lastExc with
    | some m =>
      ⟨.err (.apiError ("Request failed after " ++ toString retries ++ " attempts: " ++ m)),
        attempt, [], [], true⟩
    | none =>
      ⟨.err (.apiError ("Request failed after " ++ toString retries ++ " attempts")),
        attempt, [], [], true⟩
  | attempt, _lastExc, remaining + 1 =>
    match events attempt with
    | .response status decoded =>
      let response_data : Json := decoded.getD []
      if status = 401 then
        attemptTrace method url headers attempt
          (.err (.authError "Authentication failed. Check API key." 401 response_data))
      else if status = 403 then
        attemptTrace method url headers attempt
          (.err (.authError "Permission denied" 403 response_data))
      else if status = 404 then
        attemptTrace method url headers attempt
          (.err (.notFoundError "Resource not found" 404 response_data))
      else if status = 409 then
        attemptTrace method url headers attempt
          (.err (.conflictError "Resource already exists" 409 response_data))
      else if status = 400 ∨ status = 422 then
        attemptTrace method url headers attempt
          (.err (.validationError ((jsonGet response_data "detail").getD (.str "Validation error"))
            status response_data))
      else if 500 ≤ status then
        if 0 < remaining then
          let t := requestLoop method url headers events retries (attempt + 1)
            (some "Server error") remaining
          ⟨t.result, t.attempts, backoffDelay attempt :: t.sleeps,
            ⟨method, url, headers⟩ :: t.sent, t.fellThrough⟩
        else
          attemptTrace method url headers attempt
            (.err (.serverError "Server error" status response_data))
      else
        attemptTrace method url headers attempt (.ok status response_data)
    | .transportFault msg =>
      if 0 < remaining then
        let t := requestLoop method url headers events retries (attempt + 1) (some msg) remaining
        ⟨t.result, t.attempts, backoffDelay attempt :: t.sleeps,
          ⟨method, url, headers⟩ :: t.sent, t.fellThrough⟩
      else
        attemptTrace method url headers attempt
          (.err (.apiError ("HTTP request failed: " ++ msg)))
    | .unexpectedFault msg =>
      attemptTrace method url headers attempt (.err (.apiError ("Request failed: " ++ msg)))

/-- Translation of `VeloceClient._request`: build the URL and headers, ensure
a session, compute `retries = max_retries if retry else 1`, and run the loop.
The JSON body and query parameters are passed to the transport and do not
influence control flow; the transport's behaviour is abstracted by `events`.
Defaults mirror the source (`json_data=None`, `params=None`, `retry=True`). -/
def request (cfg : ClientConfig) (cs : ClientState) (fresh : Nat)
    (events : Nat → NetEvent) (method endpoint : String)
    (json_data : Option Json := none) (params : Option Json := none)
    (retry : Bool := true) : ClientState × ReqTrace :=
  let url := cfg.base_url ++ endpoint
  let headers := get_headers cfg.api_key
  let cs2 := (ensure_session cs fresh).1
  let retries := if retry then cfg.max_retries else 1
  (cs2, requestLoop method url headers events retries 0 none retries)

/-- Translation of `VeloceClient.health_check`: probe `GET /admin` with the
default arguments of `_request`; success and auth errors yield `true`, every
other API error (which, per the taxonomy, is every other outcome) yields
`false`. -/
def health_check (cfg : ClientConfig) (cs : ClientState) (fresh : Nat)
    (events : Nat → NetEvent) : Bool :=
  match (request cfg cs fresh events "GET" "/admin").2.result with
  | .ok _ _ => true
  | .err (.authError _ _ _) => true
  | .err _ => false

/-! Helper lemmas about the retry loop. -/

theorem requestLoop_sent_attempts (m u : String) (hd : List (String × String))
    (ev : Nat → NetEvent) (retries : Nat) :
    ∀ remaining attempt lastExc, ∃ n,
      (requestLoop m u hd ev retries attempt lastExc remaining).attempts = attempt + n ∧
      (requestLoop m u hd ev retries attempt lastExc remaining).sent =
        List.replicate n (⟨m, u, hd⟩ : SentRequest) := by
  intro remaining
  induction remaining with
  | zero =>
    intro attempt lastExc
    refine ⟨0, ?_, ?_⟩ <;> cases lastExc <;> simp [requestLoop]
  | succ r ih =>
    intro attempt lastExc
    cases hev : ev attempt with
    | response status decoded =>
      by_cases h401 : status = 401
      · exact ⟨1, by simp [requestLoop, hev, h401, attemptTrace],
          by simp [requestLoop, hev, h401, attemptTrace]⟩
      · by_cases h403 : status = 403
        · exact ⟨1, by simp [requestLoop, hev, h401, h403, attemptTrace],
            by simp [requestLoop, hev, h401, h403, attemptTrace]⟩
        · by_cases h404 : status = 404
          · exact ⟨1, by simp [requestLoop, hev, h401, h403, h404, attemptTrace],
              by simp [requestLoop, hev, h401, h403, h404, attemptTrace]⟩
          · by_cases h409 : status = 409
            · exact ⟨1, by simp [requestLoop, hev, h401, h403, h404, h409, attemptTrace],
                by simp [requestLoop, hev, h401, h403, h404, h409, attemptTrace]⟩
            · by_cases hval : status = 400 ∨ status = 422
              · exact ⟨1,
                  by simp [requestLoop, hev, h401, h403, h404, h409, hval, attemptTrace],
                  by simp [requestLoop, hev, h401, h403, h404, h409, hval, attemptTrace]⟩
              · by_cases h500 : 500 ≤ status
                · by_cases hrem : 0 < r
                  · obtain ⟨n, hn1, hn2⟩ := ih (attempt + 1) (some "Server error")
                    refine ⟨n + 1, ?_, ?_⟩
                    · simp [requestLoop, hev, h401, h403, h404, h409, hval, h500, hrem, hn1]
                      omega
                    · simp [requestLoop, hev, h401, h403, h404, h409, hval, h500, hrem, hn2,
                        List.replicate_succ]
                  · exact ⟨1,
                      by simp [requestLoop, hev, h401, h403, h404, h409, hval, h500, hrem,
                        attemptTrace],
                      by simp [requestLoop, hev, h401, h403, h404, h409, hval, h500, hrem,
                        attemptTrace]⟩
                · exact ⟨1,
                    by simp [requestLoop, hev, h401, h403, h404, h409, hval, h500, attemptTrace],
                    by simp [requestLoop, hev, h401, h403, h404, h409, hval, h500, attemptTrace]⟩
    | transportFault msg =>
      by_cases hrem : 0 < r
      · obtain ⟨n, hn1, hn2⟩ := ih (attempt + 1) (some msg)
        refine ⟨n + 1, ?_, ?_⟩
        · simp [requestLoop, hev, hrem, hn1]; omega
        · simp [requestLoop, hev, hrem, hn2, List.replicate_succ]
      · exact ⟨1, by simp [requestLoop, hev, hrem, attemptTrace],
          by simp [requestLoop, hev, hrem, attemptTrace]⟩
    | unexpectedFault msg =>
      exact ⟨1, by simp [requestLoop, hev, attemptTrace],
        by simp [requestLoop, hev, attemptTrace]⟩

theorem requestLoop_fell (m u : String) (hd : List (String × String))
    (ev : Nat → NetEvent) (retries : Nat) :
    ∀ remaining attempt lastExc, 0 < remaining →
      (requestLoop m u hd ev retries attempt lastExc remaining).fellThrough = false := by
  intro remaining
  induction remaining with
  | zero => intro attempt lastExc h; omega
  | succ r ih =>
    intro attempt lastExc _
    cases hev : ev attempt with
    | response status decoded =>
      by_cases h401 : status = 401
      · simp [requestLoop, hev, h401, attemptTrace]
      · by_cases h403 : status = 403
        · simp [requestLoop, hev, h401, h403, attemptTrace]
        · by_cases h404 : status = 404
          · simp [requestLoop, hev, h401, h403, h404, attemptTrace]
          · by_cases h409 : status = 409
            · simp [requestLoop, hev, h401, h403, h404, h409, attemptTrace]
            · by_cases hval : status = 400 ∨ status = 422
              · simp [requestLoop, hev, h401, h403, h404, h409, hval, attemptTrace]
              · by_cases h500 : 500 ≤ status
                · by_cases hrem : 0 < r
                  · simp [requestLoop, hev, h401, h403, h404, h409, hval, h500, hrem,
                      ih (attempt + 1) (some "Server error") hrem]
                  · simp [requestLoop, hev, h401, h403, h404, h409, hval, h500, hrem,
                      attemptTrace]
                · simp [requestLoop, hev, h401, h403, h404, h409, hval, h500, attemptTrace]
    | transportFault msg =>
      by_cases hrem : 0 < r
      · simp [requestLoop, hev, hrem, ih (attempt + 1) (some msg) hrem]
      · simp [requestLoop, hev, hrem, attemptTrace]
    | unexpectedFault msg =>
      simp [requestLoop, hev, attemptTrace]

theorem requestLoop_server_all (m u : String) (hd : List (String × String))
    (ev : Nat → NetEvent) (retries : Nat) (sc : Nat → Nat) (bd : Nat → Json)
    (hev : ∀ j, ev j = .response (sc j) (some (bd j))) (h5 : ∀ j, 500 ≤ sc j) :
    ∀ remaining attempt lastExc,
      requestLoop m u hd ev retries attempt lastExc (remaining + 1) =
        ⟨.err (.serverError "Server error" (sc (attempt + remaining)) (bd (attempt + remaining))),
          attempt + remaining + 1,
          (List.range' attempt remaining).map backoffDelay,
          List.replicate (remaining + 1) ⟨m, u, hd⟩, false⟩ := by
  intro remaining
  induction remaining with
  | zero =>
    intro attempt lastExc
    have h1 : ¬(sc attempt = 401) := by have := h5 attempt; omega
    have h2 : ¬(sc attempt = 403) := by have := h5 attempt; omega
    have h3 : ¬(sc attempt = 404) := by have := h5 attempt; omega
    have h4 : ¬(sc attempt = 409) := by have := h5 attempt; omega
    have hv : ¬(sc attempt = 400 ∨ sc attempt = 422) := by have := h5 attempt; omega
    simp [requestLoop, hev attempt, h1, h2, h3, h4, hv, h5 attempt, attemptTrace]
  | succ r ih =>
    intro attempt lastExc
    have h1 : ¬(sc attempt = 401) := by have := h5 attempt; omega
    have h2 : ¬(sc attempt = 403) := by have := h5 attempt; omega
    have h3 : ¬(sc attempt = 404) := by have := h5 attempt; omega
    have h4 : ¬(sc attempt = 409) := by have := h5 attempt; omega
    have hv : ¬(sc attempt = 400 ∨ sc attempt = 422) := by have := h5 attempt; omega
    have harith : attempt + 1 + r = attempt + (r + 1) := by omega
    conv_lhs => rw [requestLoop.eq_3, hev attempt]
    dsimp only
    rw [if_neg h1, if_neg h2, if_neg h3, if_neg h4, if_neg hv, if_pos (h5 attempt),
      if_pos (Nat.succ_pos r), ih (attempt + 1) (some "Server error")]
    simp [harith, List.range'_succ, List.replicate_succ]

theorem requestLoop_transport_all (m u : String) (hd : List (String × String))
    (ev : Nat → NetEvent) (retries : Nat) (ms : Nat → String)
    (hev : ∀ j, ev j = .transportFault (ms j)) :
    ∀ remaining attempt lastExc,
      requestLoop m u hd ev retries attempt lastExc (remaining + 1) =
        ⟨.err (.apiError ("HTTP request failed: " ++ ms (attempt + remaining))),
          attempt + remaining + 1,
          (List.range' attempt remaining).map backoffDelay,
          List.replicate (remaining + 1) ⟨m, u, hd⟩, false⟩ := by
  intro remaining
  induction remaining with
  | zero =>
    intro attempt lastExc
    simp [requestLoop, hev attempt, attemptTrace]
  | succ r ih =>
    intro attempt lastExc
    have harith : attempt + 1 + r = attempt + (r + 1) := by omega
    conv_lhs => rw [requestLoop.eq_3, hev attempt]
    dsimp only
    rw [if_pos (Nat.succ_pos r), ih (attempt + 1) (some (ms attempt))]
    simp [harith, List.range'_succ, List.replicate_succ]

set_option maxHeartbeats 1600000 in
theorem requestLoop_decode_congr (m u : String) (hd : List (String × String))
    (ev : Nat → NetEvent) (retries k status : Nat)
    (hk : ev k = .response status none) :
    ∀ remaining attempt lastExc,
      requestLoop m u hd ev retries attempt lastExc remaining =
      requestLoop m u hd
        (fun j => if j = k then NetEvent.response status (some []) else ev j)
        retries attempt lastExc remaining := by
  intro remaining
  induction remaining with
  | zero => intro attempt lastExc; cases lastExc <;> rfl
  | succ r ih =>
    intro attempt lastExc
    conv_lhs => rw [requestLoop.eq_3]
    conv_rhs => rw [requestLoop.eq_3]
    dsimp only
    by_cases hak : attempt = k
    · subst hak
      rw [hk, if_pos (rfl : attempt = attempt)]
      dsimp only
      split_ifs <;> first
        | rw [ih (attempt + 1) (some "Server error")]
        | rfl
    · rw [if_neg hak]
      cases hev3 : ev attempt with
      | response s2 decoded =>
        dsimp only
        split_ifs <;> first
          | rw [ih (attempt + 1) (some "Server error")]
          | rfl
      | transportFault msg =>
        dsimp only
        split_ifs <;> first
          | rw [ih (attempt + 1) (some msg)]
          | rfl
      | unexpectedFault msg => rfl

theorem requestLoop_single_attempt (m u : String) (hd : List (String × String))
    (ev : Nat → NetEvent) (retries attempt : Nat) (lastExc : Option String) :
    (requestLoop m u hd ev retries attempt lastExc 1).attempts = attempt + 1 := by
  cases hev : ev attempt with
  | response status decoded =>
    by_cases h401 : status = 401
    · simp [requestLoop, hev, h401, attemptTrace]
    · by_cases h403 : status = 403
      · simp [requestLoop, hev, h401, h403, attemptTrace]
      · by_cases h404 : status = 404
        · simp [requestLoop, hev, h401, h403, h404, attemptTrace]
        · by_cases h409 : status = 409
          · simp [requestLoop, hev, h401, h403, h404, h409, attemptTrace]
          · by_cases hval : status = 400 ∨ status = 422
            · simp [requestLoop, hev, h401, h403, h404, h409, hval, attemptTrace]
            · by_cases h500 : 500 ≤ status
              · simp [requestLoop, hev, h401, h403, h404, h409, hval, h500, attemptTrace]
              · simp [requestLoop, hev, h401, h403, h404, h409, hval, h500, attemptTrace]
  | transportFault msg => simp [requestLoop, hev, attemptTrace]
  | unexpectedFault msg => simp [requestLoop, hev, attemptTrace]

/-! Claim theorems. -/

/-- C9: every request sent by `_request`, on every attempt, carries exactly
the headers `X-API-Key: <the configured API key>` and
`Content-Type: application/json`. -/
theorem request_headers_every_attempt (cfg : ClientConfig) (cs : ClientState)
    (fresh : Nat) (events : Nat → NetEvent) (method endpoint : String)
    (json_data params : Option Json) (retry : Bool) :
    (request cfg cs fresh events method endpoint json_data params retry).2.sent =
      List.replicate
        (request cfg cs fresh events method endpoint json_data params retry).2.attempts
        ⟨method, cfg.base_url ++ endpoint,
          [("X-API-Key", cfg.api_key), ("Content-Type", "application/json")]⟩ := by
  obtain ⟨n, h1, h2⟩ := requestLoop_sent_attempts method (cfg.base_url ++ endpoint)
    (get_headers cfg.api_key) events (if retry then cfg.max_retries else 1)
    (if retry then cfg.max_retries else 1) 0 none
  simp only [get_headers] at h1 h2
  simp only [request, get_headers]
  rw [h2, h1]
  simp

/-- C2: with the retry flag true and every attempt yielding a status of at
least 500, `_request` makes exactly `max_retries` attempts, sleeping
`min(2 ** i, 60)` after each attempt `i` from `0` to `max_retries - 2`, and
then raises the server error carrying the last status code and body; with
the retry flag false, `_request` makes exactly one attempt. -/
theorem request_server_error_retries (cfg : ClientConfig) (cs : ClientState)
    (fresh : Nat) (events : Nat → NetEvent) (method endpoint : String)
    (json_data params : Option Json) (sc : Nat → Nat) (bd : Nat → Json)
    (hN : 1 ≤ cfg.max_retries)
    (hev : ∀ j, events j = .response (sc j) (some (bd j)))
    (h5 : ∀ j, 500 ≤ sc j) :
    ((request cfg cs fresh events method endpoint json_data params true).2.attempts =
        cfg.max_retries ∧
      (request cfg cs fresh events method endpoint json_data params true).2.sleeps =
        (List.range (cfg.max_retries - 1)).map backoffDelay ∧
      (request cfg cs fresh events method endpoint json_data params true).2.result =
        .err (.serverError "Server error" (sc (cfg.max_retries - 1))
          (bd (cfg.max_retries - 1)))) ∧
    ∀ ev2 : Nat → NetEvent,
      (request cfg cs fresh ev2 method endpoint json_data params false).2.attempts = 1 := by
  constructor
  · rcases Nat.exists_eq_succ_of_ne_zero (by omega : cfg.max_retries ≠ 0) with ⟨K, hK⟩
    have hmain := requestLoop_server_all method (cfg.base_url ++ endpoint)
      (get_headers cfg.api_key) events cfg.max_retries sc bd hev h5 K 0 none
    simp only [request, if_true]
    rw [hK] at hmain ⊢
    rw [hmain]
    simp [List.range_eq_range']
  · intro ev2
    simp only [request, if_false]
    simpa using requestLoop_single_attempt method (cfg.base_url ++ endpoint)
      (get_headers cfg.api_key) ev2 1 0 none

/-- C4: when the transport raises a connectivity or timeout fault on every
attempt, `_request` sleeps `min(2 ** i, 60)` after each non-final attempt and
retries, and once attempts are exhausted raises the generic API error whose
message contains the last transport fault's message. -/
theorem request_transport_fault_retries (cfg : ClientConfig) (cs : ClientState)
    (fresh : Nat) (events : Nat → NetEvent) (method endpoint : String)
    (json_data params : Option Json) (retry : Bool) (ms : Nat → String)
    (hR : 1 ≤ (if retry then cfg.max_retries else 1))
    (hev : ∀ j, events j = .transportFault (ms j)) :
    (request cfg cs fresh events method endpoint json_data params retry).2.attempts =
      (if retry then cfg.max_retries else 1) ∧
    (request cfg cs fresh events method endpoint json_data params retry).2.sleeps =
      (List.range ((if retry then cfg.max_retries else 1) - 1)).map backoffDelay ∧
    (request cfg cs fresh events method endpoint json_data params retry).2.result =
      .err (.apiError ("HTTP request failed: " ++
        ms ((if retry then cfg.max_retries else 1) - 1))) := by
  rcases Nat.exists_eq_succ_of_ne_zero
    (by omega : (if retry then cfg.max_retries else 1) ≠ 0) with ⟨K, hK⟩
  have hmain := requestLoop_transport_all method (cfg.base_url ++ endpoint)
    (get_headers cfg.api_key) events (if retry then cfg.max_retries else 1) ms hev K 0 none
  simp only [request]
  rw [hK] at hmain ⊢
  rw [hmain]
  simp [List.range_eq_range']

/-- C7 counterexample: with `max_retries = 0` and the retry flag true, the
loop body never runs, so `_request` reaches the defensive fallback after the
loop (zero attempts are made). -/
theorem request_fallback_reachable_cex :
    (request ⟨"https://panel.example/api", "key", 30, 0⟩ ⟨none, true⟩ 0
        (fun _ => .response 200 (some [])) "GET" "/admin" none none true).2.fellThrough
      = true ∧
    (request ⟨"https://panel.example/api", "key", 30, 0⟩ ⟨none, true⟩ 0
        (fun _ => .response 200 (some [])) "GET" "/admin" none none true).2.attempts = 0 := by
  constructor <;> rfl

/-- C7 (amended): whenever at least one attempt is allowed — the retry flag
is false, or `max_retries` is at least 1 — the loop body always returns or
raises, so the defensive fallback after the retry loop is unreachable. -/
theorem request_fallback_unreachable_amended (cfg : ClientConfig) (cs : ClientState)
    (fresh : Nat) (events : Nat → NetEvent) (method endpoint : String)
    (json_data params : Option Json) (retry : Bool)
    (h : retry = false ∨ 1 ≤ cfg.max_retries) :
    (request cfg cs fresh events method endpoint json_data params retry).2.fellThrough
      = false := by
  have hpos : 0 < (if retry then cfg.max_retries else 1) := by
    rcases h with h | h
    · subst h; simp
    · cases retry <;> simp <;> omega
  simp only [request]
  exact requestLoop_fell method (cfg.base_url ++ endpoint) (get_headers cfg.api_key)
    events (if retry then cfg.max_retries else 1) (if retry then cfg.max_retries else 1)
    0 none hpos

/-- C10: `health_check` invokes `_request` with the retry flag at its default
value true, so when the probe persistently yields a status of at least 500,
or persistently raises transport faults, it performs the full retry policy —
`max_retries` attempts with the exponential backoff sleeps — and then
returns false. -/
theorem health_check_retry_policy (cfg : ClientConfig) (cs : ClientState)
    (fresh : Nat) (events ev2 : Nat → NetEvent) (sc : Nat → Nat) (bd : Nat → Json)
    (ms : Nat → String) (hN : 1 ≤ cfg.max_retries)
    (hev : ∀ j, events j = .response (sc j) (some (bd j)))
    (h5 : ∀ j, 500 ≤ sc j)
    (hev2 : ∀ j, ev2 j = .transportFault (ms j)) :
    (health_check cfg cs fresh events = false ∧
      (request cfg cs fresh events "GET" "/admin").2.attempts = cfg.max_retries ∧
      (request cfg cs fresh events "GET" "/admin").2.sleeps =
        (List.range (cfg.max_retries - 1)).map backoffDelay) ∧
    (health_check cfg cs fresh ev2 = false ∧
      (request cfg cs fresh ev2 "GET" "/admin").2.attempts = cfg.max_retries ∧
      (request cfg cs fresh ev2 "GET" "/admin").2.sleeps =
        (List.range (cfg.max_retries - 1)).map backoffDelay) := by
  obtain ⟨K, hK⟩ : ∃ K, cfg.max_retries = K + 1 := ⟨cfg.max_retries - 1, by omega⟩
  have hmain := requestLoop_server_all "GET" (cfg.base_url ++ "/admin")
    (get_headers cfg.api_key) events cfg.max_retries sc bd hev h5 K 0 none
  have hmain2 := requestLoop_transport_all "GET" (cfg.base_url ++ "/admin")
    (get_headers cfg.api_key) ev2 cfg.max_retries ms hev2 K 0 none
  rw [hK] at hmain hmain2
  simp only [health_check, request, if_true]
  rw [hK, hmain, hmain2]
  simp [List.range_eq_range']

/-- C1: for every HTTP response received by `_request`, status 401 or 403
raises the auth error, 404 the not-found error, 409 the conflict error, 400
or 422 the validation error whose message is the body's `detail` field
(defaulting to "Validation error" when absent), each carrying the triggering
status code and the decoded body; and any other status below 500 makes
`_request` return `(status, body)` immediately as success. -/
theorem request_status_classification (cfg : ClientConfig) (cs : ClientState)
    (fresh : Nat) (events : Nat → NetEvent) (method endpoint : String)
    (json_data params : Option Json) (retry : Bool) (status : Nat) (body : Json)
    (hR : 1 ≤ (if retry then cfg.max_retries else 1))
    (hev : events 0 = .response status (some body)) :
    ((status = 401 ∨ status = 403) →
      (request cfg cs fresh events method endpoint json_data params retry).2.result =
        .err (.authError
          (if status = 401 then "Authentication failed. Check API key."
            else "Permission denied") status body)) ∧
    (status = 404 →
      (request cfg cs fresh events method endpoint json_data params retry).2.result =
        .err (.notFoundError "Resource not found" 404 body)) ∧
    (status = 409 →
      (request cfg cs fresh events method endpoint json_data params retry).2.result =
        .err (.conflictError "Resource already exists" 409 body)) ∧
    ((status = 400 ∨ status = 422) →
      (request cfg cs fresh events method endpoint json_data params retry).2.result =
        .err (.validationError
          ((jsonGet body "detail").getD (.str "Validation error")) status body)) ∧
    (status < 500 → status ∉ ([400, 401, 403, 404, 409, 422] : List Nat) →
      (request cfg cs fresh events method endpoint json_data params retry).2.result =
          .ok status body ∧
        (request cfg cs fresh events method endpoint json_data params retry).2.attempts
          = 1) := by
  obtain ⟨K, hK⟩ : ∃ K, (if retry then cfg.max_retries else 1) = K + 1 :=
    ⟨(if retry then cfg.max_retries else 1) - 1, by omega⟩
  refine ⟨?_, ?_, ?_, ?_, ?_⟩
  · rintro (h | h) <;> subst h <;> simp [request, hK, requestLoop, hev, attemptTrace]
  · intro h; subst h
    simp [request, hK, requestLoop, hev, attemptTrace]
  · intro h; subst h
    simp [request, hK, requestLoop, hev, attemptTrace]
  · rintro (h | h) <;> subst h <;> simp [request, hK, requestLoop, hev, attemptTrace]
  · intro hlt hnotin
    simp only [List.mem_cons, List.mem_singleton, not_or] at hnotin
    obtain ⟨h400, h401, h403, h404, h409, h422⟩ := hnotin
    have hv : ¬(status = 400 ∨ status = 422) := by tauto
    have h500 : ¬(500 ≤ status) := by omega
    constructor <;>
      simp [request, hK, requestLoop, hev, attemptTrace, h401, h403, h404, h409, hv, h500]

/-- C3: at any attempt of the retry loop, with any remaining retry budget and
any recorded error, a response whose status is one of 401, 403, 404, 409,
400, 422 raises the matching typed error at that very attempt: the loop
executes no further attempt and performs no backoff sleep. -/
theorem requestLoop_nonretryable_immediate (method url : String)
    (headers : List (String × String)) (events : Nat → NetEvent)
    (retries attempt remaining : Nat) (lastExc : Option String)
    (status : Nat) (body : Json)
    (hev : events attempt = .response status (some body))
    (hs : status ∈ ([401, 403, 404, 409, 400, 422] : List Nat)) :
    (requestLoop method url headers events retries attempt lastExc (remaining + 1)).attempts
        = attempt + 1 ∧
    (requestLoop method url headers events retries attempt lastExc (remaining + 1)).sleeps
        = [] ∧
    (requestLoop method url headers events retries attempt lastExc (remaining + 1)).sent
        = [⟨method, url, headers⟩] ∧
    (status = 401 →
      (requestLoop method url headers events retries attempt lastExc (remaining + 1)).result
        = .err (.authError "Authentication failed. Check API key." 401 body)) ∧
    (status = 403 →
      (requestLoop method url headers events retries attempt lastExc (remaining + 1)).result
        = .err (.authError "Permission denied" 403 body)) ∧
    (status = 404 →
      (requestLoop method url headers events retries attempt lastExc (remaining + 1)).result
        = .err (.notFoundError "Resource not found" 404 body)) ∧
    (status = 409 →
      (requestLoop method url headers events retries attempt lastExc (remaining + 1)).result
        = .err (.conflictError "Resource already exists" 409 body)) ∧
    ((status = 400 ∨ status = 422) →
      (requestLoop method url headers events retries attempt lastExc (remaining + 1)).result
        = .err (.validationError
            ((jsonGet body "detail").getD (.str "Validation error")) status body)) := by
  fin_cases hs <;> simp [requestLoop, hev, attemptTrace]

/-- C5: a response whose body fails to decode as JSON is handled exactly as
one whose body is the empty mapping — the whole `_request` trace is the same
— so decode failure alone never causes an error, and a 200 response with a
non-JSON body on the first attempt returns `(200, {})`. -/
theorem request_decode_failure_empty_body (cfg : ClientConfig) (cs : ClientState)
    (fresh : Nat) (events : Nat → NetEvent) (method endpoint : String)
    (json_data params : Option Json) (retry : Bool) (k status : Nat)
    (hk : events k = .response status none) :
    (request cfg cs fresh events method endpoint json_data params retry).2 =
      (request cfg cs fresh
        (fun j => if j = k then NetEvent.response status (some []) else events j)
        method endpoint json_data params retry).2 ∧
    (k = 0 → status = 200 → 1 ≤ (if retry then cfg.max_retries else 1) →
      (request cfg cs fresh events method endpoint json_data params retry).2.result =
        .ok 200 []) := by
  constructor
  · simp only [request]
    exact requestLoop_decode_congr method (cfg.base_url ++ endpoint)
      (get_headers cfg.api_key) events (if retry then cfg.max_retries else 1) k status hk
      (if retry then cfg.max_retries else 1) 0 none
  · rintro rfl rfl hRge
    obtain ⟨K, hK⟩ : ∃ K, (if retry then cfg.max_retries else 1) = K + 1 :=
      ⟨(if retry then cfg.max_retries else 1) - 1, by omega⟩
    simp [request, hK, requestLoop, hk, attemptTrace]

/-- C6: `health_check` issues `GET /admin` and returns a boolean on every
outcome of the probe, never propagating an error: true exactly when the
probe succeeds or raises an auth-classified error, false on every other API
error or unexpected fault. -/
theorem health_check_classification (cfg : ClientConfig) (cs : ClientState)
    (fresh : Nat) (events : Nat → NetEvent) :
    (∀ r ∈ (request cfg cs fresh events "GET" "/admin").2.sent,
        r.method = "GET" ∧ r.url = cfg.base_url ++ "/admin") ∧
    (health_check cfg cs fresh events = true ↔
      ((∃ s b, (request cfg cs fresh events "GET" "/admin").2.result = .ok s b) ∨
        (∃ m c b, (request cfg cs fresh events "GET" "/admin").2.result =
          .err (.authError m c b)))) := by
  constructor
  · intro r hr
    obtain ⟨n, h1, h2⟩ := requestLoop_sent_attempts "GET" (cfg.base_url ++ "/admin")
      (get_headers cfg.api_key) events cfg.max_retries cfg.max_retries 0 none
    simp [request] at hr
    rw [h2] at hr
    have heq := List.eq_of_mem_replicate hr
    subst heq
    exact ⟨rfl, rfl⟩
  · cases hres : (request cfg cs fresh events "GET" "/admin").2.result with
    | ok s b => simp [health_check, hres]
    | err e => cases e <;> simp [health_check, hres]

/-- C8: `close` is idempotent and safe in every client state: calling it when
no session exists (including a second consecutive call) leaves the stored
session reference absent, and a subsequent `_request` transparently obtains a
fresh open session via `_ensure_session` and proceeds with a trace that does
not depend on the prior session state. -/
theorem close_idempotent_session_recreated (cs : ClientState) (fresh : Nat) :
    close (close cs) = close cs ∧
    (cs.session = none → close cs = cs ∧ (close (close cs)).session = none) ∧
    (ensure_session (close cs) fresh).2.closed = false ∧
    (ensure_session (close cs) fresh).1.session
        = some (ensure_session (close cs) fresh).2 ∧
    (∀ (cfg : ClientConfig) (events : Nat → NetEvent) (method endpoint : String)
        (json_data params : Option Json) (retry : Bool) (cs2 : ClientState),
      (request cfg (close (close cs)) fresh events method endpoint json_data params retry).2
        = (request cfg cs2 fresh events method endpoint json_data params retry).2) := by
  obtain ⟨sess, owns⟩ := cs
  have hlast : ∀ (cfg : ClientConfig) (events : Nat → NetEvent) (method endpoint : String)
      (json_data params : Option Json) (retry : Bool) (cs2 : ClientState),
      (request cfg (close (close ⟨sess, owns⟩)) fresh events method endpoint
          json_data params retry).2
        = (request cfg cs2 fresh events method endpoint json_data params retry).2 :=
    fun _ _ _ _ _ _ _ _ => rfl
  rcases sess with _ | ⟨c, sid⟩
  · refine ⟨?_, ?_, ?_, ?_, hlast⟩ <;> simp [close, ensure_session]
  · cases c <;> cases owns <;>
      (refine ⟨?_, ?_, ?_, ?_, hlast⟩ <;> simp [close, ensure_session])

/-! Witnesses: each claim theorem with a hypothesis applied at a concrete
input, with every hypothesis discharged there. -/

/-- C1 witness: a 404 response on the first attempt yields the not-found
error carrying status 404 and the decoded body. -/
theorem request_status_classification_witness :
    (request ⟨"https://panel.example/api", "key", 30, 3⟩ ⟨none, true⟩ 0
        (fun _ => .response 404 (some [])) "GET" "/users" none none true).2.result =
      .err (.notFoundError "Resource not found" 404 []) :=
  (request_status_classification ⟨"https://panel.example/api", "key", 30, 3⟩ ⟨none, true⟩ 0
      (fun _ => .response 404 (some [])) "GET" "/users" none none true 404 []
      (by decide) rfl).2.1 rfl

/-- C2 witness: with `max_retries = 3` and persistent 503 responses, the
backoff sleeps are `min(2 ** 0, 60) = 1` and `min(2 ** 1, 60) = 2`. -/
theorem request_server_error_retries_witness :
    (request ⟨"https://panel.example/api", "key", 30, 3⟩ ⟨none, true⟩ 0
        (fun _ => .response 503 (some [])) "GET" "/nodes" none none true).2.sleeps
      = [1, 2] := by
  have h := request_server_error_retries ⟨"https://panel.example/api", "key", 30, 3⟩
    ⟨none, true⟩ 0 (fun _ => .response 503 (some [])) "GET" "/nodes" none none
    (fun _ => 503) (fun _ => []) (by decide) (fun _ => rfl)
    (fun _ => (by decide : 500 ≤ 503))
  rw [h.1.2.1]
  rfl

/-- C3 witness: a 409 response at attempt 0 with two attempts still in the
budget raises the conflict error with no backoff sleep. -/
theorem requestLoop_nonretryable_immediate_witness :
    (requestLoop "POST" "https://panel.example/api/users" [("X-API-Key", "key")]
        (fun _ => .response 409 (some [])) 3 0 none 3).sleeps = [] ∧
    (requestLoop "POST" "https://panel.example/api/users" [("X-API-Key", "key")]
        (fun _ => .response 409 (some [])) 3 0 none 3).result
      = .err (.conflictError "Resource already exists" 409 []) := by
  have h := requestLoop_nonretryable_immediate "POST" "https://panel.example/api/users"
    [("X-API-Key", "key")] (fun _ => .response 409 (some [])) 3 0 2 none 409 [] rfl
    (by decide)
  exact ⟨h.2.1, h.2.2.2.2.2.2.1 rfl⟩

/-- C4 witness: with `max_retries = 2` and persistent transport timeouts,
the final error is the generic API error wrapping the fault's message. -/
theorem request_transport_fault_retries_witness :
    (request ⟨"https://panel.example/api", "key", 30, 2⟩ ⟨none, true⟩ 0
        (fun _ => .transportFault "timeout") "GET" "/system" none none true).2.result =
      .err (.apiError ("HTTP request failed: " ++ "timeout")) := by
  have h := request_transport_fault_retries ⟨"https://panel.example/api", "key", 30, 2⟩
    ⟨none, true⟩ 0 (fun _ => .transportFault "timeout") "GET" "/system" none none true
    (fun _ => "timeout") (by decide) (fun _ => rfl)
  exact h.2.2

/-- C5 witness: a 200 response whose body fails to decode returns
`(200, {})`. -/
theorem request_decode_failure_empty_body_witness :
    (request ⟨"https://panel.example/api", "key", 30, 3⟩ ⟨none, true⟩ 0
        (fun _ => .response 200 none) "GET" "/admin" none none true).2.result =
      .ok 200 [] :=
  (request_decode_failure_empty_body ⟨"https://panel.example/api", "key", 30, 3⟩
      ⟨none, true⟩ 0 (fun _ => .response 200 none) "GET" "/admin" none none true 0 200
      rfl).2 rfl rfl (by decide)

/-- C6 witness: a 401-classified probe makes `health_check` return true. -/
theorem health_check_classification_witness :
    health_check ⟨"https://panel.example/api", "key", 30, 3⟩ ⟨none, true⟩ 0
      (fun _ => .response 401 (some [])) = true := by
  have h := health_check_classification ⟨"https://panel.example/api", "key", 30, 3⟩
    ⟨none, true⟩ 0 (fun _ => .response 401 (some []))
  exact h.2.mpr (Or.inr ⟨"Authentication failed. Check API key.", 401, [], by rfl⟩)

/-- C7 witness: with `max_retries = 3` the fallback is not reached even when
the attempt raises an unexpected fault. -/
theorem request_fallback_unreachable_amended_witness :
    (request ⟨"https://panel.example/api", "key", 30, 3⟩ ⟨none, true⟩ 0
        (fun _ => .unexpectedFault "boom") "GET" "/admin" none none true).2.fellThrough
      = false :=
  request_fallback_unreachable_amended ⟨"https://panel.example/api", "key", 30, 3⟩
    ⟨none, true⟩ 0 (fun _ => .unexpectedFault "boom") "GET" "/admin" none none true
    (Or.inr (by decide))

/-- C8 witness: closing twice from the no-session state is a no-op and a
later `_ensure_session` hands back an open session. -/
theorem close_idempotent_session_recreated_witness :
    close (close (⟨none, true⟩ : ClientState)) = close ⟨none, true⟩ ∧
    close (⟨none, true⟩ : ClientState) = ⟨none, true⟩ ∧
    (ensure_session (close (⟨none, true⟩ : ClientState)) 7).2.closed = false := by
  have h := close_idempotent_session_recreated ⟨none, true⟩ 7
  exact ⟨h.1, (h.2.1 rfl).1, h.2.2.1⟩

/-- C10 witness: with `max_retries = 3` and persistent 500 responses the
probe sleeps 1 then 2 time units and `health_check` returns false. -/
theorem health_check_retry_policy_witness :
    health_check ⟨"https://panel.example/api", "key", 30, 3⟩ ⟨none, true⟩ 0
        (fun _ => .response 500 (some [])) = false ∧
    (request ⟨"https://panel.example/api", "key", 30, 3⟩ ⟨none, true⟩ 0
        (fun _ => .response 500 (some [])) "GET" "/admin").2.sleeps = [1, 2] := by
  have h := health_check_retry_policy ⟨"https://panel.example/api", "key", 30, 3⟩
    ⟨none, true⟩ 0 (fun _ => .response 500 (some [])) (fun _ => .transportFault "t")
    (fun _ => 500) (fun _ => []) (fun _ => "t")
    (by decide) (fun _ => rfl) (fun _ => (by decide : 500 ≤ 500)) (fun _ => rfl)
  refine ⟨h.1.1, ?_⟩
  rw [h.1.2.2]
  rfl

end Veloce
